import Mathlib

/-!
Verification of the Anime and Manga Explorer API core.

A shallow embedding of the request-validation → persistence → response-shaping
pipeline of the CSE341 final project (Express + Zod + MongoDB).  Pure parts of
the JavaScript source (identifier parsing, the four Zod schemas, the route
handler bodies, the auth-middleware selection, the connection accessor) are
translated into executable Lean definitions; the database collection is
modelled as an association list from identifier strings to documents, and the
single route-local database operation of each handler is made explicit.
-/

namespace AnimeApi

/-- JSON-like values as delivered by `express.json()` to the route handlers,
extended with a `jdate` constructor for the `new Date()` timestamps the
handlers store (time is an abstract tick counter). -/
inductive JValue where
  | jnull
  | jbool (b : Bool)
  | jnum (q : ℚ)
  | jstr (s : String)
  | jarr (elems : List JValue)
  | jdate (t : Nat)

/-- A JSON object / stored MongoDB document: an association list of fields.
JavaScript objects have distinct keys, so first-match lookup is faithful. -/
abbrev Doc := List (String × JValue)

/-- A MongoDB collection: identifier (canonical lower-case 24-hex string) to
document.  The `_id` field is the association key. -/
abbrev Collection := List (String × Doc)

/-! ## String primitives

Executable models of the JavaScript string operations the source uses
(`trim`, `toLowerCase`, `split`), written by structural recursion on the
character list so that concrete runs reduce definitionally.  `trim` removes
ASCII whitespace (the inputs of interest have no exotic Unicode spacing). -/

def isWsChar (c : Char) : Bool :=
  c = ' ' || c = '\t' || c = '\n' || c = '\r'

def trimChars (cs : List Char) : List Char :=
  ((cs.dropWhile isWsChar).reverse.dropWhile isWsChar).reverse

/-- JavaScript `String.prototype.trim`. -/
def jsTrim (s : String) : String := ⟨trimChars s.data⟩

def asciiLowerChar (c : Char) : Char :=
  if 'A' ≤ c && c ≤ 'Z' then Char.ofNat (c.toNat + 32) else c

/-- JavaScript `String.prototype.toLowerCase` (ASCII letters). -/
def asciiLower (s : String) : String := ⟨s.data.map asciiLowerChar⟩

/-- JavaScript `split(sep)` on a character list. -/
def splitOnChar (sep : Char) : List Char → List (List Char)
  | [] => [[]]
  | c :: rest =>
    let r := splitOnChar sep rest
    if c = sep then [] :: r
    else
      match r with
      | [] => [[c]]
      | h :: t => (c :: h) :: t

/-! ## Identifier codec

`parseId` wraps `new ObjectId(id)` (bson v6: a string is accepted exactly when
it is 24 hexadecimal characters, case-insensitive; the repository's own
`ObjectIdString` regex in the watchlists router encodes the same shape).  An
accepted id is canonicalised to lower case, mirroring the byte representation
ObjectId equality actually compares. -/

def isHexChar (c : Char) : Bool :=
  c.isDigit || ('a' ≤ c && c ≤ 'f') || ('A' ≤ c && c ≤ 'F')

def isObjectIdString (s : String) : Bool :=
  s.length = 24 && s.data.all isHexChar

/-- The routers' `parseId` helper: succeeds on a 24-hex string, otherwise throws
an error with `statusCode = 400` and the router-specific message
(`"Invalid id"` in anime/manga, `"Invalid id format"` in users/watchlists). -/
def parseIdMsg (msg : String) (s : String) : Except String String :=
  if isObjectIdString s then .ok (asciiLower s) else .error msg

/-! ## Number coercion (`z.coerce.number()`)

Zod's coercion applies JavaScript's `Number()` to the input.  `jsNumberOfString`
models `Number` on the decimal-literal subset of strings (optional sign, digits,
optional fractional part; a blank string is `0`); strings outside this subset
(hex, exponent, `Infinity`, garbage) are treated as NaN, i.e. `none`.  `Number`
on primitives: numbers pass through, `true`/`false` are 1/0, `null` is 0;
arrays/objects never occur in numeric positions in what we prove, and are
treated as NaN. -/

def digitsVal (cs : List Char) : Nat :=
  cs.foldl (fun acc c => acc * 10 + (c.toNat - '0'.toNat)) 0

def allDigits (cs : List Char) : Bool := cs.all Char.isDigit

def jsNumberOfString (s : String) : Option ℚ :=
  let t := trimChars s.data
  if t.isEmpty then some 0
  else
    let neg : Bool := match t with | '-' :: _ => true | _ => false
    let body : List Char := match t with | '-' :: r => r | '+' :: r => r | r => r
    let mag : Option ℚ :=
      match splitOnChar '.' body with
      | [ip] => if ip ≠ [] && allDigits ip then some (mkRat (digitsVal ip) 1) else none
      | [ip, fp] =>
          if (ip ≠ [] || fp ≠ []) && allDigits ip && allDigits fp then
            some (mkRat (digitsVal ip * 10 ^ fp.length + digitsVal fp) (10 ^ fp.length))
          else none
      | _ => none
    mag.map (fun m => if neg then -m else m)

def jsToNumber : JValue → Option ℚ
  | .jnum q => some q
  | .jstr s => jsNumberOfString s
  | .jbool b => some (if b then 1 else 0)
  | .jnull => some 0
  | .jarr _ => none
  | .jdate t => some t

/-- JavaScript `Number.isInteger` on a rational. -/
def isIntQ (q : ℚ) : Bool := q.den = 1

/-! ## Field validators

One small function per Zod field combinator; `none` is a failed field.
A missing object key reaches the field schema as `undefined` (`Option.none`
here). -/

/-- Zod `z.string().trim().min(1)`: required, trims, then needs length ≥ 1. -/
def reqTrimmedNonempty (v : Option JValue) : Option String :=
  match v with
  | some (.jstr s) => if 1 ≤ (jsTrim s).length then some (jsTrim s) else none
  | _ => none

/-- Zod `z.string().trim().optional()`. -/
def optTrimmedString (v : Option JValue) : Option (Option String) :=
  match v with
  | none => some none
  | some (.jstr s) => some (some (jsTrim s))
  | some _ => none

/-- Zod `z.enum([...])`. -/
def strEnum (allowed : List String) (v : Option JValue) : Option String :=
  match v with
  | some (.jstr s) => if s ∈ allowed then some s else none
  | _ => none

/-- Zod `z.enum([...]).default(d)`: a missing key takes the default, a present key
must be in the enumeration. -/
def strEnumDefault (allowed : List String) (d : String) (v : Option JValue) : Option String :=
  match v with
  | none => some d
  | some (.jstr s) => if s ∈ allowed then some s else none
  | some _ => none

/-- Zod `z.coerce.number()` followed by a refinement `check`: `Number(input)` is
applied first (NaN fails), then the refinement.  `Number(undefined)` is NaN,
so a missing required coerced field fails. -/
def coerceNum (check : ℚ → Bool) (v : Option JValue) : Option ℚ :=
  match v with
  | none => none
  | some j =>
    match jsToNumber j with
    | some q => if check q then some q else none
    | none => none

/-- Zod `z.coerce.number()....optional()`. -/
def coerceNumOpt (check : ℚ → Bool) (v : Option JValue) : Option (Option ℚ) :=
  match v with
  | none => some none
  | some j =>
    match jsToNumber j with
    | some q => if check q then some (some q) else none
    | none => none

/-- Zod `z.number()` followed by a refinement, `.optional()`: strict — only a JSON
number is accepted, no coercion. -/
def strictNumOpt (check : ℚ → Bool) (v : Option JValue) : Option (Option ℚ) :=
  match v with
  | none => some none
  | some (.jnum q) => if check q then some (some q) else none
  | some _ => none

/-- An element of `z.array(z.string().trim().min(1))`. -/
def jstrTrimNonempty : JValue → Bool
  | .jstr s => decide (1 ≤ (jsTrim s).length)
  | _ => false

/-- Zod `z.array(z.string().trim().min(1)).min(1)` (the `genres` field). -/
def genresField (v : Option JValue) : Option (List String) :=
  match v with
  | some (.jarr xs) =>
      if decide (1 ≤ xs.length) && xs.all jstrTrimNonempty then
        some (xs.map (fun j => match j with | .jstr s => jsTrim s | _ => ""))
      else none
  | _ => none

/-- Zod `z.string().url()` membership test, abstracting Zod's URL check; only ever
evaluated at plain http(s) URLs or absent fields in this development. -/
def urlOk (s : String) : Bool :=
  s.data.take 7 = "http://".data || s.data.take 8 = "https://".data

/-- `z.string().url().optional()`. -/
def optUrlString (v : Option JValue) : Option (Option String) :=
  match v with
  | none => some none
  | some (.jstr s) => if urlOk s then some (some s) else none
  | some _ => none

/-- Zod `z.string().email()` membership test, abstracting Zod's email regex to
"one `@` splitting two nonempty halves, no spaces"; only ever evaluated at
plainly well-formed addresses or non-strings in this development. -/
def emailOk (s : String) : Bool :=
  match splitOnChar '@' s.data with
  | [l, r] => !l.isEmpty && !r.isEmpty && !s.data.contains ' '
  | _ => false

/-- Zod `z.string().email()` (required). -/
def emailField (v : Option JValue) : Option String :=
  match v with
  | some (.jstr s) => if emailOk s then some s else none
  | _ => none

/-- Zod `z.string().min(1)` (no trim — users.displayName). -/
def reqNonempty (v : Option JValue) : Option String :=
  match v with
  | some (.jstr s) => if 1 ≤ s.length then some s else none
  | _ => none

/-- Zod `z.string().regex` of 24 hex characters (watchlists' ObjectIdString). -/
def objectIdStringField (v : Option JValue) : Option String :=
  match v with
  | some (.jstr s) => if isObjectIdString s then some s else none
  | _ => none

/-- Zod `z.string().max(500).optional()` (watchlists.notes). -/
def optMaxString (n : Nat) (v : Option JValue) : Option (Option String) :=
  match v with
  | none => some none
  | some (.jstr s) => if s.length ≤ n then some (some s) else none
  | some _ => none

/-! ## AnimeSchema (src/routes/anime.js) -/

/-- The output shape of `AnimeSchema.parse`. -/
structure ParsedAnime where
  title : String
  genres : List String
  releaseYear : ℚ
  rating : Option ℚ
  episodes : Option ℚ
  studio : Option String
  status : String
  description : Option String
  coverImage : Option String
deriving DecidableEq

def aTitle (b : Doc) : Option String := reqTrimmedNonempty (b.lookup "title")
def aGenres (b : Doc) : Option (List String) := genresField (b.lookup "genres")
def aReleaseYear (cy : Nat) (b : Doc) : Option ℚ :=
  coerceNum (fun q => isIntQ q && decide ((1960 : ℚ) ≤ q) && decide (q ≤ ((cy + 1 : ℕ) : ℚ)))
    (b.lookup "releaseYear")
def aRating (b : Doc) : Option (Option ℚ) :=
  coerceNumOpt (fun q => decide ((0 : ℚ) ≤ q) && decide (q ≤ (10 : ℚ))) (b.lookup "rating")
def aEpisodes (b : Doc) : Option (Option ℚ) :=
  coerceNumOpt (fun q => isIntQ q && decide ((0 : ℚ) ≤ q)) (b.lookup "episodes")
def aStudio (b : Doc) : Option (Option String) := optTrimmedString (b.lookup "studio")
def aStatus (b : Doc) : Option String :=
  strEnum ["finished", "airing", "upcoming"] (b.lookup "status")
def aDescription (b : Doc) : Option (Option String) := optTrimmedString (b.lookup "description")
def aCover (b : Doc) : Option (Option String) := optUrlString (b.lookup "coverImage")

/-- The top-level field names a Zod error report can mention for Anime, i.e.
the keys declared in `AnimeSchema`. -/
def animeFieldNames : List String :=
  ["title", "genres", "releaseYear", "rating", "episodes", "studio", "status",
   "description", "coverImage"]

/-- The field names of `err.flatten().fieldErrors` when `AnimeSchema.parse`
fails: Zod validates every declared key and aggregates all issues, so each
failing field contributes its name (issues inside `genres` elements surface
under `genres`). -/
def animeErrors (cy : Nat) (b : Doc) : List String :=
  (if (aTitle b).isSome then [] else ["title"]) ++
  (if (aGenres b).isSome then [] else ["genres"]) ++
  (if (aReleaseYear cy b).isSome then [] else ["releaseYear"]) ++
  (if (aRating b).isSome then [] else ["rating"]) ++
  (if (aEpisodes b).isSome then [] else ["episodes"]) ++
  (if (aStudio b).isSome then [] else ["studio"]) ++
  (if (aStatus b).isSome then [] else ["status"]) ++
  (if (aDescription b).isSome then [] else ["description"]) ++
  (if (aCover b).isSome then [] else ["coverImage"])

/-- The whole `AnimeSchema.parse`: all nine declared fields must validate; on success
the output holds exactly the validated (coerced / trimmed / defaulted)
declared fields — undeclared keys of the input are stripped; on failure the
names of all failing fields are reported.  `cy` is the module-load
`currentYear`. -/
def animeValidate (cy : Nat) (b : Doc) : Except (List String) ParsedAnime :=
  if animeErrors cy b = [] then
    .ok { title := (aTitle b).getD ""
          genres := (aGenres b).getD []
          releaseYear := (aReleaseYear cy b).getD 0
          rating := (aRating b).getD none
          episodes := (aEpisodes b).getD none
          studio := (aStudio b).getD none
          status := (aStatus b).getD ""
          description := (aDescription b).getD none
          coverImage := (aCover b).getD none }
  else .error (animeErrors cy b)

/-- Spreading an optional parsed field into a stored document (`...parsed`
skips keys Zod's output does not have). -/
def optField (name : String) : Option JValue → Doc
  | none => []
  | some v => [(name, v)]

/-- The document shape of `parsed` for Anime, in schema key order. -/
def animeToDoc (p : ParsedAnime) : Doc :=
  [("title", .jstr p.title), ("genres", .jarr (p.genres.map .jstr)),
   ("releaseYear", .jnum p.releaseYear)]
  ++ optField "rating" (p.rating.map .jnum)
  ++ optField "episodes" (p.episodes.map .jnum)
  ++ optField "studio" (p.studio.map .jstr)
  ++ [("status", .jstr p.status)]
  ++ optField "description" (p.description.map .jstr)
  ++ optField "coverImage" (p.coverImage.map .jstr)

/-! ## MangaSchema (src/routes/manga.js) — strict numeric fields, no coercion -/

structure ParsedManga where
  title : String
  genres : List String
  author : String
  chapters : Option ℚ
  status : String
  releaseYear : Option ℚ
  rating : Option ℚ
  description : Option String
  coverImage : Option String
deriving DecidableEq

def mTitle (b : Doc) : Option String := reqTrimmedNonempty (b.lookup "title")
def mGenres (b : Doc) : Option (List String) := genresField (b.lookup "genres")
def mAuthor (b : Doc) : Option String := reqTrimmedNonempty (b.lookup "author")
def mChapters (b : Doc) : Option (Option ℚ) :=
  strictNumOpt (fun q => isIntQ q && decide ((0 : ℚ) ≤ q)) (b.lookup "chapters")
def mStatus (b : Doc) : Option String :=
  strEnum ["ongoing", "finished", "hiatus"] (b.lookup "status")
def mReleaseYear (cy : Nat) (b : Doc) : Option (Option ℚ) :=
  strictNumOpt (fun q => isIntQ q && decide ((1960 : ℚ) ≤ q) && decide (q ≤ ((cy + 1 : ℕ) : ℚ)))
    (b.lookup "releaseYear")
def mRating (b : Doc) : Option (Option ℚ) :=
  strictNumOpt (fun q => decide ((0 : ℚ) ≤ q) && decide (q ≤ (10 : ℚ))) (b.lookup "rating")
def mDescription (b : Doc) : Option (Option String) := optTrimmedString (b.lookup "description")
def mCover (b : Doc) : Option (Option String) := optUrlString (b.lookup "coverImage")

def mangaErrors (cy : Nat) (b : Doc) : List String :=
  (if (mTitle b).isSome then [] else ["title"]) ++
  (if (mGenres b).isSome then [] else ["genres"]) ++
  (if (mAuthor b).isSome then [] else ["author"]) ++
  (if (mChapters b).isSome then [] else ["chapters"]) ++
  (if (mStatus b).isSome then [] else ["status"]) ++
  (if (mReleaseYear cy b).isSome then [] else ["releaseYear"]) ++
  (if (mRating b).isSome then [] else ["rating"]) ++
  (if (mDescription b).isSome then [] else ["description"]) ++
  (if (mCover b).isSome then [] else ["coverImage"])

/-- The whole `MangaSchema.parse`. -/
def mangaValidate (cy : Nat) (b : Doc) : Except (List String) ParsedManga :=
  if mangaErrors cy b = [] then
    .ok { title := (mTitle b).getD ""
          genres := (mGenres b).getD []
          author := (mAuthor b).getD ""
          chapters := (mChapters b).getD none
          status := (mStatus b).getD ""
          releaseYear := (mReleaseYear cy b).getD none
          rating := (mRating b).getD none
          description := (mDescription b).getD none
          coverImage := (mCover b).getD none }
  else .error (mangaErrors cy b)

def mangaToDoc (p : ParsedManga) : Doc :=
  [("title", .jstr p.title), ("genres", .jarr (p.genres.map .jstr)),
   ("author", .jstr p.author)]
  ++ optField "chapters" (p.chapters.map .jnum)
  ++ [("status", .jstr p.status)]
  ++ optField "releaseYear" (p.releaseYear.map .jnum)
  ++ optField "rating" (p.rating.map .jnum)
  ++ optField "description" (p.description.map .jstr)
  ++ optField "coverImage" (p.coverImage.map .jstr)

/-! ## UserSchema (src/routes/users.js) -/

structure ParsedUser where
  email : String
  displayName : String
  role : String
deriving DecidableEq

def uEmail (b : Doc) : Option String := emailField (b.lookup "email")
def uDisplayName (b : Doc) : Option String := reqNonempty (b.lookup "displayName")
def uRole (b : Doc) : Option String :=
  strEnumDefault ["user", "admin"] "user" (b.lookup "role")

def userErrors (b : Doc) : List String :=
  (if (uEmail b).isSome then [] else ["email"]) ++
  (if (uDisplayName b).isSome then [] else ["displayName"]) ++
  (if (uRole b).isSome then [] else ["role"])

/-- The whole `UserSchema.parse`. -/
def userValidate (b : Doc) : Except (List String) ParsedUser :=
  if userErrors b = [] then
    .ok { email := (uEmail b).getD ""
          displayName := (uDisplayName b).getD ""
          role := (uRole b).getD "" }
  else .error (userErrors b)

def userToDoc (p : ParsedUser) : Doc :=
  [("email", .jstr p.email), ("displayName", .jstr p.displayName), ("role", .jstr p.role)]

/-! ## WatchItemSchema (src/routes/watchlists.js) -/

structure ParsedWatchItem where
  userId : String
  kind : String
  refId : String
  status : String
  notes : Option String
deriving DecidableEq

def wUserId (b : Doc) : Option String := objectIdStringField (b.lookup "userId")
def wKind (b : Doc) : Option String := strEnum ["anime", "manga"] (b.lookup "kind")
def wRefId (b : Doc) : Option String := objectIdStringField (b.lookup "refId")
def wStatus (b : Doc) : Option String :=
  strEnumDefault ["planned", "watching", "completed", "reading"] "planned" (b.lookup "status")
def wNotes (b : Doc) : Option (Option String) := optMaxString 500 (b.lookup "notes")

def watchErrors (b : Doc) : List String :=
  (if (wUserId b).isSome then [] else ["userId"]) ++
  (if (wKind b).isSome then [] else ["kind"]) ++
  (if (wRefId b).isSome then [] else ["refId"]) ++
  (if (wStatus b).isSome then [] else ["status"]) ++
  (if (wNotes b).isSome then [] else ["notes"])

/-- The whole `WatchItemSchema.parse`. -/
def watchValidate (b : Doc) : Except (List String) ParsedWatchItem :=
  if watchErrors b = [] then
    .ok { userId := (wUserId b).getD ""
          kind := (wKind b).getD ""
          refId := (wRefId b).getD ""
          status := (wStatus b).getD ""
          notes := (wNotes b).getD none }
  else .error (watchErrors b)

def watchToDoc (p : ParsedWatchItem) : Doc :=
  [("userId", .jstr p.userId), ("kind", .jstr p.kind), ("refId", .jstr p.refId),
   ("status", .jstr p.status)]
  ++ optField "notes" (p.notes.map .jstr)

/-! ## HTTP responses and route handlers

Handlers model the async route functions as they run after the auth
middleware (`jwtCheck, needWrite`), composed with the process-wide error
handler of `server.js` (which turns a thrown `parseId` error into its
`statusCode` 400 with the exposed message).  `now` stands for `new Date()`
and `newId` for the identifier `insertOne` assigns. -/

inductive RespBody where
  | empty
  | msg (m : String)
  | errors (m : String) (fields : List String)
  | createdId (id : String)
  | doc (d : Doc)
  | docs (ds : List Doc)

structure Resp where
  status : Nat
  body : RespBody

/-- Express `req.is('application/json')` is truthy exactly when the request's media
type (parameters such as `charset` stripped, case-insensitive) is
`application/json`. -/
def ctIsJson (ct : String) : Bool :=
  asciiLower ⟨trimChars (ct.data.takeWhile (fun c => c ≠ ';'))⟩ = "application/json"

structure HResult where
  resp : Resp
  col : Collection

/-- Handler for `GET` on a collection — `find({}).toArray()`, 200. -/
def listHandler (col : Collection) : Resp :=
  ⟨200, .docs (col.map (fun kv => ("_id", JValue.jstr kv.1) :: kv.2))⟩

/-- Handler for `GET` by id — parse id (400 on failure), `findOne` (404 when absent,
otherwise 200 with the document). -/
def getByIdHandler (idMsg : String) (idStr : String) (col : Collection) : Resp :=
  match parseIdMsg idMsg idStr with
  | .error m => ⟨400, .msg m⟩
  | .ok id =>
    match col.lookup id with
    | none => ⟨404, .msg "Not found"⟩
    | some d => ⟨200, .doc (("_id", .jstr id) :: d)⟩

/-- Handler for `POST` — 415 unless the content type is JSON, then validate
(400 with the aggregated field report on failure), then `insertOne` of
`mkDoc parsed now` and 201 with the new id. -/
def postHandler {α : Type} (validate : Doc → Except (List String) α)
    (mkDoc : α → Nat → Doc) (ct : String) (body : Doc) (now : Nat) (newId : String)
    (col : Collection) : HResult :=
  if ¬ ctIsJson ct then ⟨⟨415, .msg "Content-Type must be application/json"⟩, col⟩
  else
    match validate body with
    | .error es => ⟨⟨400, .errors "Validation error" es⟩, col⟩
    | .ok p => ⟨⟨201, .createdId newId⟩, col ++ [(newId, mkDoc p now)]⟩

/-- Handler for `PUT` — 415 unless JSON, then parse id (400), then validate
(400), then `replaceOne({_id}, mkDoc parsed now)`: 404 when no document
matches, otherwise the matched document is fully replaced and 204 returned. -/
def putHandler {α : Type} (idMsg : String) (validate : Doc → Except (List String) α)
    (mkDoc : α → Nat → Doc) (ct : String) (idStr : String) (body : Doc) (now : Nat)
    (col : Collection) : HResult :=
  if ¬ ctIsJson ct then ⟨⟨415, .msg "Content-Type must be application/json"⟩, col⟩
  else
    match parseIdMsg idMsg idStr with
    | .error m => ⟨⟨400, .msg m⟩, col⟩
    | .ok id =>
      match validate body with
      | .error es => ⟨⟨400, .errors "Validation error" es⟩, col⟩
      | .ok p =>
        if (col.lookup id).isSome then
          ⟨⟨204, .empty⟩, col.map (fun kv => if kv.1 = id then (id, mkDoc p now) else kv)⟩
        else ⟨⟨404, .msg "Not found"⟩, col⟩

/-- Handler for `DELETE` — parse id (400), then `deleteOne`: 404 when nothing
deleted, otherwise 204. -/
def deleteHandler (idMsg : String) (idStr : String) (col : Collection) : HResult :=
  match parseIdMsg idMsg idStr with
  | .error m => ⟨⟨400, .msg m⟩, col⟩
  | .ok id =>
    if (col.lookup id).isSome then
      ⟨⟨204, .empty⟩, col.filter (fun kv => kv.1 ≠ id)⟩
    else ⟨⟨404, .msg "Not found"⟩, col⟩

/-! ### The four routers, instantiated from the source

anime:      POST inserts `{ ...parsed, createdAt: now, updatedAt: now }`,
            PUT replaces with `{ ...parsed, updatedAt: new Date() }`.
manga:      POST inserts `parsed` and PUT replaces with `parsed` — the manga
            router adds no timestamp fields at all.
users:      like anime (timestamps on POST, `updatedAt` only on PUT).
watchlists: like anime (timestamps on POST, `updatedAt` only on PUT). -/

def animeDocPost (p : ParsedAnime) (now : Nat) : Doc :=
  animeToDoc p ++ [("createdAt", .jdate now), ("updatedAt", .jdate now)]
def animeDocPut (p : ParsedAnime) (now : Nat) : Doc :=
  animeToDoc p ++ [("updatedAt", .jdate now)]

def animeGetById (idStr : String) (col : Collection) : Resp :=
  getByIdHandler "Invalid id" idStr col
def animePost (cy : Nat) : String → Doc → Nat → String → Collection → HResult :=
  postHandler (animeValidate cy) animeDocPost
def animePut (cy : Nat) : String → String → Doc → Nat → Collection → HResult :=
  putHandler "Invalid id" (animeValidate cy) animeDocPut
def animeDelete (idStr : String) (col : Collection) : HResult :=
  deleteHandler "Invalid id" idStr col

def mangaDocPost (p : ParsedManga) (_now : Nat) : Doc := mangaToDoc p
def mangaDocPut (p : ParsedManga) (_now : Nat) : Doc := mangaToDoc p

def mangaGetById (idStr : String) (col : Collection) : Resp :=
  getByIdHandler "Invalid id" idStr col
def mangaPost (cy : Nat) : String → Doc → Nat → String → Collection → HResult :=
  postHandler (mangaValidate cy) mangaDocPost
def mangaPut (cy : Nat) : String → String → Doc → Nat → Collection → HResult :=
  putHandler "Invalid id" (mangaValidate cy) mangaDocPut
def mangaDelete (idStr : String) (col : Collection) : HResult :=
  deleteHandler "Invalid id" idStr col

def userDocPost (p : ParsedUser) (now : Nat) : Doc :=
  userToDoc p ++ [("createdAt", .jdate now), ("updatedAt", .jdate now)]
def userDocPut (p : ParsedUser) (now : Nat) : Doc :=
  userToDoc p ++ [("updatedAt", .jdate now)]

def userGetById (idStr : String) (col : Collection) : Resp :=
  getByIdHandler "Invalid id format" idStr col
def userPost : String → Doc → Nat → String → Collection → HResult :=
  postHandler userValidate userDocPost
def userPut : String → String → Doc → Nat → Collection → HResult :=
  putHandler "Invalid id format" userValidate userDocPut
def userDelete (idStr : String) (col : Collection) : HResult :=
  deleteHandler "Invalid id format" idStr col

def watchDocPost (p : ParsedWatchItem) (now : Nat) : Doc :=
  watchToDoc p ++ [("createdAt", .jdate now), ("updatedAt", .jdate now)]
def watchDocPut (p : ParsedWatchItem) (now : Nat) : Doc :=
  watchToDoc p ++ [("updatedAt", .jdate now)]

def watchGetById (idStr : String) (col : Collection) : Resp :=
  getByIdHandler "Invalid id format" idStr col
def watchPost : String → Doc → Nat → String → Collection → HResult :=
  postHandler watchValidate watchDocPost
def watchPut : String → String → Doc → Nat → Collection → HResult :=
  putHandler "Invalid id format" watchValidate watchDocPut
def watchDelete (idStr : String) (col : Collection) : HResult :=
  deleteHandler "Invalid id format" idStr col

/-! ## Authorization Gate (src/middleware/auth.js)

The module-load configuration reads environment variables once and selects
either real middleware from `express-oauth2-jwt-bearer` or a no-op.  The
external library is modelled from its documented contract: `auth({audience,
issuerBaseURL, ...})` admits a request iff its bearer token has a valid
signature and matching audience and issuer; `requiredScopes(s)` admits a
request iff its token carries scope `s`. -/

structure AuthEnv where
  AUTH_DISABLE : Option String
  AUTH0_AUDIENCE : Option String
  AUTH0_ISSUER_BASE_URL : Option String
  AUTH0_DOMAIN : Option String

/-- JavaScript truthiness of an environment variable (`undefined` and the
empty string are falsy). -/
def truthy : Option String → Bool
  | some s => !s.data.isEmpty
  | none => false

/-- The check `String(process.env.AUTH_DISABLE or blank).toLowerCase() === 'true'`. -/
def authDisabled (e : AuthEnv) : Bool :=
  asciiLower (e.AUTH_DISABLE.getD "") = "true"

/-- The check `!!AUTH0_AUDIENCE && (!!AUTH0_ISSUER_BASE_URL || !!AUTH0_DOMAIN)`. -/
def hasAuthConfig (e : AuthEnv) : Bool :=
  truthy e.AUTH0_AUDIENCE && (truthy e.AUTH0_ISSUER_BASE_URL || truthy e.AUTH0_DOMAIN)

/-- The fallback `AUTH0_ISSUER_BASE_URL || (AUTH0_DOMAIN ? https-domain : undefined)`. -/
def issuerBaseURL (e : AuthEnv) : Option String :=
  if truthy e.AUTH0_ISSUER_BASE_URL then e.AUTH0_ISSUER_BASE_URL
  else if truthy e.AUTH0_DOMAIN then some ("https://" ++ e.AUTH0_DOMAIN.getD "")
  else none

/-- The bearer token (if any) attached to a request, as the identity provider
library sees it. -/
structure Token where
  validSig : Bool
  aud : String
  iss : String
  scopes : List String

inductive Middleware where
  | noop
  | verifyJwt (audience : String) (issuer : String)
  | needScope (scope : String)
deriving DecidableEq

/-- Whether a middleware passes a request (carrying `tok`) on to the next
handler.  `noop` is `(_req, _res, next) => next()`. -/
def mwAllows : Middleware → Option Token → Bool
  | .noop, _ => true
  | .verifyJwt a i, some t => t.validSig && (t.aud == a) && (t.iss == i)
  | .verifyJwt _ _, none => false
  | .needScope s, some t => t.scopes.contains s
  | .needScope _, none => false

/-- The exported `jwtCheck`: real JWT validation when configured and not disabled, else a
no-op. -/
def jwtCheck (e : AuthEnv) : Middleware :=
  if hasAuthConfig e && !authDisabled e then
    .verifyJwt (e.AUTH0_AUDIENCE.getD "") ((issuerBaseURL e).getD "")
  else .noop

/-- The scope-guard factory `reqScopes(scopes)`. -/
def reqScopes (e : AuthEnv) (s : String) : Middleware :=
  if hasAuthConfig e && !authDisabled e then .needScope s else .noop

/-- The exported `needWrite = reqScopes('write:library')`. -/
def needWrite (e : AuthEnv) : Middleware := reqScopes e "write:library"

/-! ## Persistence Gateway (src/db/connect.js)

Module state is the pair of the `db` handle (the selected database's name
stands for the handle) and a count of physical connections made.  `netOk`
models whether the external `client.connect()` call would succeed. -/

structure DbState where
  db : Option String
  connects : Nat
deriving DecidableEq

def startDbState : DbState := ⟨none, 0⟩

/-- The exported `connectToDb(uri, dbName)`: rejects missing (falsy) arguments, returns the
already-open handle unchanged when one exists, otherwise performs the one
physical connection and stores the handle. -/
def connectToDb (netOk : Bool) (uri dbName : String) (s : DbState) :
    Except String (String × DbState) :=
  if uri.data.isEmpty then .error "MONGODB_URI missing"
  else if dbName.data.isEmpty then .error "DB_NAME missing"
  else
    match s.db with
    | some d => .ok (d, s)
    | none =>
      if netOk then .ok (dbName, ⟨some dbName, s.connects + 1⟩)
      else .error "connection failed"

/-- The exported `getDb()`: the stored handle, or a not-initialized error. -/
def getDb (s : DbState) : Except String String :=
  match s.db with
  | some d => .ok d
  | none => .error "DB not initialized. Call connectToDb first."

/-! ## Helper lemmas -/

theorem lookup_append_single {β : Type} (l : List (String × β)) (k a : String) (v : β)
    (h : a ≠ k) : (l ++ [(k, v)]).lookup a = l.lookup a := by
  rw [List.lookup_append]
  have hb : (a == k) = false := beq_eq_false_iff_ne.mpr h
  have : ([(k, v)] : List (String × β)).lookup a = none := by
    simp [List.lookup_cons, hb]
  rw [this, Option.or_none]

theorem optField_lookup_ne (name a : String) (o : Option JValue) (h : a ≠ name) :
    (optField name o).lookup a = none := by
  have hb : (a == name) = false := beq_eq_false_iff_ne.mpr h
  cases o <;> simp [optField, List.lookup_cons, hb]

theorem lookup_replace (col : Collection) (id : String) (d : Doc)
    (h : (col.lookup id).isSome = true) :
    (col.map (fun kv => if kv.1 = id then (id, d) else kv)).lookup id = some d := by
  induction col with
  | nil => simp at h
  | cons hd tl ih =>
    rcases hd with ⟨k, v⟩
    by_cases he : k = id
    · subst he
      simp [List.lookup_cons]
    · have hne : (id == k) = false := by
        simp [Ne.symm he]
      simp only [List.map_cons] at *
      rw [if_neg (by simpa using he)]
      rw [List.lookup_cons] at h ⊢
      simp only [hne] at h ⊢
      simpa using ih (by simpa using h)

theorem mem_errChunk_iff {α : Type} (o : Option α) (n f : String) :
    f ∈ (if o.isSome then ([] : List String) else [n]) ↔ (f = n ∧ o = none) := by
  cases o <;> simp

/-- A generic success equation for the create handlers. -/
theorem postHandler_ok {α : Type} (validate : Doc → Except (List String) α)
    (mkDoc : α → Nat → Doc) (ct : String) (body : Doc) (now : Nat) (newId : String)
    (col : Collection) (p : α) (hct : ctIsJson ct = true) (hv : validate body = .ok p) :
    postHandler validate mkDoc ct body now newId col =
      ⟨⟨201, .createdId newId⟩, col ++ [(newId, mkDoc p now)]⟩ := by
  simp [postHandler, hct, hv]

/-- A generic success equation for the replace handlers. -/
theorem putHandler_ok {α : Type} (idMsg : String) (validate : Doc → Except (List String) α)
    (mkDoc : α → Nat → Doc) (ct idStr : String) (body : Doc) (now : Nat) (col : Collection)
    (id : String) (p : α) (hct : ctIsJson ct = true)
    (hid : parseIdMsg idMsg idStr = .ok id) (hv : validate body = .ok p)
    (hm : (col.lookup id).isSome = true) :
    putHandler idMsg validate mkDoc ct idStr body now col =
      ⟨⟨204, .empty⟩, col.map (fun kv => if kv.1 = id then (id, mkDoc p now) else kv)⟩ := by
  simp [putHandler, hct, hid, hv, hm]

def mangaFieldNames : List String :=
  ["title", "genres", "author", "chapters", "status", "releaseYear", "rating",
   "description", "coverImage"]

def userFieldNames : List String := ["email", "displayName", "role"]

def watchFieldNames : List String := ["userId", "kind", "refId", "status", "notes"]

theorem animeToDoc_lookup_of_not_mem (p : ParsedAnime) (a : String)
    (h : a ∉ animeFieldNames) : (animeToDoc p).lookup a = none := by
  simp only [animeFieldNames, List.mem_cons, List.not_mem_nil, or_false, not_or] at h
  obtain ⟨h1, h2, h3, h4, h5, h6, h7, h8, h9⟩ := h
  simp [animeToDoc, List.lookup_append, List.lookup_cons, optField_lookup_ne,
    h1, h2, h3, h4, h5, h6, h7, h8, h9,
    beq_eq_false_iff_ne.mpr h1, beq_eq_false_iff_ne.mpr h2, beq_eq_false_iff_ne.mpr h3,
    beq_eq_false_iff_ne.mpr h4, beq_eq_false_iff_ne.mpr h5, beq_eq_false_iff_ne.mpr h6,
    beq_eq_false_iff_ne.mpr h7, beq_eq_false_iff_ne.mpr h8, beq_eq_false_iff_ne.mpr h9]

theorem mangaToDoc_lookup_of_not_mem (p : ParsedManga) (a : String)
    (h : a ∉ mangaFieldNames) : (mangaToDoc p).lookup a = none := by
  simp only [mangaFieldNames, List.mem_cons, List.not_mem_nil, or_false, not_or] at h
  obtain ⟨h1, h2, h3, h4, h5, h6, h7, h8, h9⟩ := h
  simp [mangaToDoc, List.lookup_append, List.lookup_cons, optField_lookup_ne,
    h1, h2, h3, h4, h5, h6, h7, h8, h9,
    beq_eq_false_iff_ne.mpr h1, beq_eq_false_iff_ne.mpr h2, beq_eq_false_iff_ne.mpr h3,
    beq_eq_false_iff_ne.mpr h4, beq_eq_false_iff_ne.mpr h5, beq_eq_false_iff_ne.mpr h6,
    beq_eq_false_iff_ne.mpr h7, beq_eq_false_iff_ne.mpr h8, beq_eq_false_iff_ne.mpr h9]

theorem userToDoc_lookup_of_not_mem (p : ParsedUser) (a : String)
    (h : a ∉ userFieldNames) : (userToDoc p).lookup a = none := by
  simp only [userFieldNames, List.mem_cons, List.not_mem_nil, or_false, not_or] at h
  obtain ⟨h1, h2, h3⟩ := h
  simp [userToDoc, List.lookup_cons, beq_eq_false_iff_ne.mpr h1,
    beq_eq_false_iff_ne.mpr h2, beq_eq_false_iff_ne.mpr h3]

theorem watchToDoc_lookup_of_not_mem (p : ParsedWatchItem) (a : String)
    (h : a ∉ watchFieldNames) : (watchToDoc p).lookup a = none := by
  simp only [watchFieldNames, List.mem_cons, List.not_mem_nil, or_false, not_or] at h
  obtain ⟨h1, h2, h3, h4, h5⟩ := h
  simp [watchToDoc, List.lookup_append, List.lookup_cons, optField_lookup_ne,
    h1, h2, h3, h4, h5,
    beq_eq_false_iff_ne.mpr h1, beq_eq_false_iff_ne.mpr h2, beq_eq_false_iff_ne.mpr h3,
    beq_eq_false_iff_ne.mpr h4, beq_eq_false_iff_ne.mpr h5]

instance {ε α : Type} [DecidableEq ε] [DecidableEq α] : DecidableEq (Except ε α) := by
  intro a b
  cases a <;> cases b
  case error.error e1 e2 =>
    exact if h : e1 = e2 then .isTrue (by rw [h]) else .isFalse (by simpa using h)
  case error.ok e1 a2 => exact .isFalse (by simp)
  case ok.error a1 e2 => exact .isFalse (by simp)
  case ok.ok a1 a2 =>
    exact if h : a1 = a2 then .isTrue (by rw [h]) else .isFalse (by simpa using h)

/-! ## Sample data for concrete runs -/

def sampleAnimeBody : Doc :=
  [("title", .jstr "Cowboy Bebop"), ("genres", .jarr [.jstr "Action"]),
   ("releaseYear", .jnum 1998), ("status", .jstr "finished")]

def sampleParsedAnime : ParsedAnime :=
  ⟨"Cowboy Bebop", ["Action"], 1998, none, none, none, "finished", none, none⟩

def sampleStoredAnime : Doc :=
  [("title", .jstr "Old Title"), ("genres", .jarr [.jstr "Drama"]),
   ("releaseYear", .jnum 1990), ("status", .jstr "finished"),
   ("createdAt", .jdate 5), ("updatedAt", .jdate 5)]

def sampleMangaBody : Doc :=
  [("title", .jstr "One Piece"), ("genres", .jarr [.jstr "Adventure"]),
   ("author", .jstr "Eiichiro Oda"), ("status", .jstr "ongoing")]

def sampleParsedManga : ParsedManga :=
  ⟨"One Piece", ["Adventure"], "Eiichiro Oda", none, "ongoing", none, none, none, none⟩

def sampleUserBody : Doc :=
  [("email", .jstr "demo@example.com"), ("displayName", .jstr "Demo User")]

def sampleParsedUser : ParsedUser := ⟨"demo@example.com", "Demo User", "user"⟩

def sampleWatchBody : Doc :=
  [("userId", .jstr "6640a2f2d7b3c1a9f0a11223"), ("kind", .jstr "anime"),
   ("refId", .jstr "665f6a0f2c3d4b1a9f0a1234")]

def sampleParsedWatch : ParsedWatchItem :=
  ⟨"6640a2f2d7b3c1a9f0a11223", "anime", "665f6a0f2c3d4b1a9f0a1234", "planned", none⟩

theorem optField_none (name : String) : optField name none = ([] : Doc) := rfl


/-! ## Claim theorems -/

/-- Claim C1 (corrected), counterexample: a successful anime PUT on a stored
record that has a `createdAt` field produces a stored document with NO
`createdAt` field — the source replaces with `{ ...parsed, updatedAt }` and
`replaceOne` drops everything else, so `createdAt` is not preserved as the
claim states. -/
theorem c1_createdAt_not_preserved_cex :
    sampleStoredAnime.lookup "createdAt" = some (.jdate 5) ∧
    (animePut 2026 "application/json" "665f6a0f2c3d4b1a9f0a1234" sampleAnimeBody 100
        [("665f6a0f2c3d4b1a9f0a1234", sampleStoredAnime)]).resp.status = 204 ∧
    ((((animePut 2026 "application/json" "665f6a0f2c3d4b1a9f0a1234" sampleAnimeBody 100
        [("665f6a0f2c3d4b1a9f0a1234", sampleStoredAnime)]).col.lookup
          "665f6a0f2c3d4b1a9f0a1234").getD []).lookup "createdAt") = none :=
  ⟨rfl, by decide, rfl⟩

/-- Claim C1 (amended): a successful PUT on an existing record stores exactly
the validated replacement fields plus a refreshed `updatedAt`; every field
omitted from the replacement body is absent afterwards — including
`createdAt`, which is NOT preserved from before the replace (the stored
document has no `createdAt` at all).  Shown for the anime and users routers
the claim cites. -/
theorem c1_put_full_replace (cy : Nat) (ct idA idU : String) (bA bU : Doc) (now : Nat)
    (colA colU : Collection) (iA iU : String) (pA : ParsedAnime) (pU : ParsedUser)
    (hct : ctIsJson ct = true)
    (hidA : parseIdMsg "Invalid id" idA = .ok iA)
    (hvA : animeValidate cy bA = .ok pA)
    (hmA : (colA.lookup iA).isSome = true)
    (hidU : parseIdMsg "Invalid id format" idU = .ok iU)
    (hvU : userValidate bU = .ok pU)
    (hmU : (colU.lookup iU).isSome = true) :
    ((animePut cy ct idA bA now colA).resp.status = 204 ∧
     (animePut cy ct idA bA now colA).col.lookup iA = some (animeDocPut pA now) ∧
     (animeDocPut pA now).lookup "createdAt" = none ∧
     (animeDocPut pA now).lookup "updatedAt" = some (.jdate now) ∧
     (pA.rating = none → (animeDocPut pA now).lookup "rating" = none) ∧
     (pA.episodes = none → (animeDocPut pA now).lookup "episodes" = none) ∧
     (pA.studio = none → (animeDocPut pA now).lookup "studio" = none) ∧
     (pA.description = none → (animeDocPut pA now).lookup "description" = none) ∧
     (pA.coverImage = none → (animeDocPut pA now).lookup "coverImage" = none) ∧
     (∀ f, f ∉ animeFieldNames → f ≠ "updatedAt" → (animeDocPut pA now).lookup f = none)) ∧
    ((userPut ct idU bU now colU).resp.status = 204 ∧
     (userPut ct idU bU now colU).col.lookup iU = some (userDocPut pU now) ∧
     (userDocPut pU now).lookup "createdAt" = none ∧
     (userDocPut pU now).lookup "updatedAt" = some (.jdate now) ∧
     (∀ f, f ∉ userFieldNames → f ≠ "updatedAt" → (userDocPut pU now).lookup f = none)) := by
  have hA := putHandler_ok "Invalid id" (animeValidate cy) animeDocPut ct idA bA now colA
    iA pA hct hidA hvA hmA
  have hU := putHandler_ok "Invalid id format" userValidate userDocPut ct idU bU now colU
    iU pU hct hidU hvU hmU
  constructor
  · refine ⟨?_, ?_, ?_, ?_, ?_, ?_, ?_, ?_, ?_, ?_⟩
    · simp only [animePut, hA]
    · simp only [animePut, hA]
      exact lookup_replace colA iA _ hmA
    · rw [animeDocPut, List.lookup_append,
        animeToDoc_lookup_of_not_mem pA "createdAt" (by decide)]
      simp [List.lookup_cons]
    · rw [animeDocPut, List.lookup_append,
        animeToDoc_lookup_of_not_mem pA "updatedAt" (by decide)]
      simp [List.lookup_cons]
    · intro hr
      simp [animeDocPut, animeToDoc, hr, optField_none, List.lookup_append, List.lookup_cons,
        optField_lookup_ne]
    · intro hr
      simp [animeDocPut, animeToDoc, hr, optField_none, List.lookup_append, List.lookup_cons,
        optField_lookup_ne]
    · intro hr
      simp [animeDocPut, animeToDoc, hr, optField_none, List.lookup_append, List.lookup_cons,
        optField_lookup_ne]
    · intro hr
      simp [animeDocPut, animeToDoc, hr, optField_none, List.lookup_append, List.lookup_cons,
        optField_lookup_ne]
    · intro hr
      simp [animeDocPut, animeToDoc, hr, optField_none, List.lookup_append, List.lookup_cons,
        optField_lookup_ne]
    · intro f h1 h2
      rw [animeDocPut, List.lookup_append, animeToDoc_lookup_of_not_mem pA f h1]
      simp [List.lookup_cons, beq_eq_false_iff_ne.mpr h2]
  · refine ⟨?_, ?_, ?_, ?_, ?_⟩
    · simp only [userPut, hU]
    · simp only [userPut, hU]
      exact lookup_replace colU iU _ hmU
    · rw [userDocPut, List.lookup_append,
        userToDoc_lookup_of_not_mem pU "createdAt" (by decide)]
      simp [List.lookup_cons]
    · rw [userDocPut, List.lookup_append,
        userToDoc_lookup_of_not_mem pU "updatedAt" (by decide)]
      simp [List.lookup_cons]
    · intro f h1 h2
      rw [userDocPut, List.lookup_append, userToDoc_lookup_of_not_mem pU f h1]
      simp [List.lookup_cons, beq_eq_false_iff_ne.mpr h2]

/-- Witness for C1's amended theorem at a concrete replace. -/
theorem c1_put_full_replace_witness :
    ctIsJson "application/json" = true ∧
    animeValidate 2026 sampleAnimeBody = .ok sampleParsedAnime ∧
    userValidate sampleUserBody = .ok sampleParsedUser ∧
    (animeDocPut sampleParsedAnime 100).lookup "createdAt" = none :=
  ⟨rfl, by decide, by decide,
   (c1_put_full_replace 2026 "application/json" "665f6a0f2c3d4b1a9f0a1234"
      "6640a2f2d7b3c1a9f0a11223" sampleAnimeBody sampleUserBody 100
      [("665f6a0f2c3d4b1a9f0a1234", sampleStoredAnime)]
      [("6640a2f2d7b3c1a9f0a11223", [("email", .jstr "old@example.com")])]
      "665f6a0f2c3d4b1a9f0a1234" "6640a2f2d7b3c1a9f0a11223"
      sampleParsedAnime sampleParsedUser
      rfl (by decide) (by decide) (by decide) (by decide) (by decide) (by decide)).1.2.2.1⟩

/-- Claim C2: a path id parses exactly when it is 24 hexadecimal characters
(case-insensitive); every other id string makes get-by-id, replace, and
delete on each of the four resources answer 400 with the router's invalid-id
message (never 404 or 500) and leave the collection unchanged.  The replace
arms assume a JSON content type, since a non-JSON PUT is answered 415 before
the id parse runs (spec section 8 / claim C6). -/
theorem c2_id_parse_status (cy now : Nat) (ct sGood sBad : String) (body : Doc)
    (colA colM colU colW : Collection)
    (hg : isObjectIdString sGood = true) (hb : isObjectIdString sBad = false)
    (hct : ctIsJson ct = true) :
    parseIdMsg "Invalid id" sGood = .ok (asciiLower sGood) ∧
    parseIdMsg "Invalid id format" sGood = .ok (asciiLower sGood) ∧
    parseIdMsg "Invalid id" sBad = .error "Invalid id" ∧
    parseIdMsg "Invalid id format" sBad = .error "Invalid id format" ∧
    animeGetById sBad colA = ⟨400, .msg "Invalid id"⟩ ∧
    mangaGetById sBad colM = ⟨400, .msg "Invalid id"⟩ ∧
    userGetById sBad colU = ⟨400, .msg "Invalid id format"⟩ ∧
    watchGetById sBad colW = ⟨400, .msg "Invalid id format"⟩ ∧
    animePut cy ct sBad body now colA = ⟨⟨400, .msg "Invalid id"⟩, colA⟩ ∧
    mangaPut cy ct sBad body now colM = ⟨⟨400, .msg "Invalid id"⟩, colM⟩ ∧
    userPut ct sBad body now colU = ⟨⟨400, .msg "Invalid id format"⟩, colU⟩ ∧
    watchPut ct sBad body now colW = ⟨⟨400, .msg "Invalid id format"⟩, colW⟩ ∧
    animeDelete sBad colA = ⟨⟨400, .msg "Invalid id"⟩, colA⟩ ∧
    mangaDelete sBad colM = ⟨⟨400, .msg "Invalid id"⟩, colM⟩ ∧
    userDelete sBad colU = ⟨⟨400, .msg "Invalid id format"⟩, colU⟩ ∧
    watchDelete sBad colW = ⟨⟨400, .msg "Invalid id format"⟩, colW⟩ := by
  refine ⟨?_, ?_, ?_, ?_, ?_, ?_, ?_, ?_, ?_, ?_, ?_, ?_, ?_, ?_, ?_, ?_⟩ <;>
    simp [parseIdMsg, hg, hb, hct, animeGetById, mangaGetById, userGetById, watchGetById,
      getByIdHandler, animePut, mangaPut, userPut, watchPut, putHandler,
      animeDelete, mangaDelete, userDelete, watchDelete, deleteHandler]

/-- Witness for C2 at a mixed-case valid id and a malformed id. -/
theorem c2_id_parse_status_witness :
    isObjectIdString "665F6A0f2c3d4b1a9f0a1234" = true ∧
    isObjectIdString "not-an-id" = false ∧
    ctIsJson "application/json" = true ∧
    animeGetById "not-an-id" [] = ⟨400, .msg "Invalid id"⟩ :=
  ⟨by decide, by decide, rfl,
   (c2_id_parse_status 2026 0 "application/json" "665F6A0f2c3d4b1a9f0a1234" "not-an-id"
      [] [] [] [] [] (by decide) (by decide) rfl).2.2.2.2.1⟩

/-- Claim C3 (corrected), counterexample: a successful manga create (201)
stores the validated payload with NEITHER `createdAt` nor `updatedAt` — the
manga router's `insertOne(parsed)` adds no timestamps, contradicting the
claim that every resource type's create sets both. -/
theorem c3_manga_no_timestamps_cex :
    (mangaPost 2026 "application/json" sampleMangaBody 100
        "665f6a0f2c3d4b1a9f0a5678" []).resp.status = 201 ∧
    ((((mangaPost 2026 "application/json" sampleMangaBody 100 "665f6a0f2c3d4b1a9f0a5678"
        []).col.lookup "665f6a0f2c3d4b1a9f0a5678").getD []).lookup "createdAt") = none ∧
    ((((mangaPost 2026 "application/json" sampleMangaBody 100 "665f6a0f2c3d4b1a9f0a5678"
        []).col.lookup "665f6a0f2c3d4b1a9f0a5678").getD []).lookup "updatedAt") = none :=
  ⟨by decide, rfl, rfl⟩

/-- Claim C3 (amended): successful creates on anime, users, and watchlists set
both `createdAt` and `updatedAt` server-side on the stored document, while the
manga create sets neither; successful replaces on anime, users, and watchlists
refresh `updatedAt` but drop `createdAt` (the replacement document omits it),
while a manga replace sets neither timestamp. -/
theorem c3_timestamps_by_resource (cy now : Nat) (ct nid : String)
    (bA bM bU bW : Doc) (colA colM colU colW : Collection)
    (pA : ParsedAnime) (pM : ParsedManga) (pU : ParsedUser) (pW : ParsedWatchItem)
    (idA idM idU idW iA iM iU iW : String)
    (hct : ctIsJson ct = true)
    (hvA : animeValidate cy bA = .ok pA) (hvM : mangaValidate cy bM = .ok pM)
    (hvU : userValidate bU = .ok pU) (hvW : watchValidate bW = .ok pW)
    (hidA : parseIdMsg "Invalid id" idA = .ok iA) (hmA : (colA.lookup iA).isSome = true)
    (hidM : parseIdMsg "Invalid id" idM = .ok iM) (hmM : (colM.lookup iM).isSome = true)
    (hidU : parseIdMsg "Invalid id format" idU = .ok iU) (hmU : (colU.lookup iU).isSome = true)
    (hidW : parseIdMsg "Invalid id format" idW = .ok iW) (hmW : (colW.lookup iW).isSome = true) :
    (animePost cy ct bA now nid colA
        = ⟨⟨201, .createdId nid⟩, colA ++ [(nid, animeDocPost pA now)]⟩ ∧
      (animeDocPost pA now).lookup "createdAt" = some (.jdate now) ∧
      (animeDocPost pA now).lookup "updatedAt" = some (.jdate now)) ∧
    (userPost ct bU now nid colU
        = ⟨⟨201, .createdId nid⟩, colU ++ [(nid, userDocPost pU now)]⟩ ∧
      (userDocPost pU now).lookup "createdAt" = some (.jdate now) ∧
      (userDocPost pU now).lookup "updatedAt" = some (.jdate now)) ∧
    (watchPost ct bW now nid colW
        = ⟨⟨201, .createdId nid⟩, colW ++ [(nid, watchDocPost pW now)]⟩ ∧
      (watchDocPost pW now).lookup "createdAt" = some (.jdate now) ∧
      (watchDocPost pW now).lookup "updatedAt" = some (.jdate now)) ∧
    (mangaPost cy ct bM now nid colM
        = ⟨⟨201, .createdId nid⟩, colM ++ [(nid, mangaDocPost pM now)]⟩ ∧
      (mangaDocPost pM now).lookup "createdAt" = none ∧
      (mangaDocPost pM now).lookup "updatedAt" = none) ∧
    ((animePut cy ct idA bA now colA).col.lookup iA = some (animeDocPut pA now) ∧
      (animeDocPut pA now).lookup "updatedAt" = some (.jdate now) ∧
      (animeDocPut pA now).lookup "createdAt" = none) ∧
    ((userPut ct idU bU now colU).col.lookup iU = some (userDocPut pU now) ∧
      (userDocPut pU now).lookup "updatedAt" = some (.jdate now) ∧
      (userDocPut pU now).lookup "createdAt" = none) ∧
    ((watchPut ct idW bW now colW).col.lookup iW = some (watchDocPut pW now) ∧
      (watchDocPut pW now).lookup "updatedAt" = some (.jdate now) ∧
      (watchDocPut pW now).lookup "createdAt" = none) ∧
    ((mangaPut cy ct idM bM now colM).col.lookup iM = some (mangaDocPut pM now) ∧
      (mangaDocPut pM now).lookup "updatedAt" = none ∧
      (mangaDocPut pM now).lookup "createdAt" = none) := by
  refine ⟨⟨?_, ?_, ?_⟩, ⟨?_, ?_, ?_⟩, ⟨?_, ?_, ?_⟩, ⟨?_, ?_, ?_⟩,
    ⟨?_, ?_, ?_⟩, ⟨?_, ?_, ?_⟩, ⟨?_, ?_, ?_⟩, ⟨?_, ?_, ?_⟩⟩
  · exact postHandler_ok (animeValidate cy) animeDocPost ct bA now nid colA pA hct hvA
  · rw [animeDocPost, List.lookup_append,
      animeToDoc_lookup_of_not_mem pA "createdAt" (by decide)]
    simp [List.lookup_cons]
  · rw [animeDocPost, List.lookup_append,
      animeToDoc_lookup_of_not_mem pA "updatedAt" (by decide)]
    simp [List.lookup_cons]
  · exact postHandler_ok userValidate userDocPost ct bU now nid colU pU hct hvU
  · rw [userDocPost, List.lookup_append,
      userToDoc_lookup_of_not_mem pU "createdAt" (by decide)]
    simp [List.lookup_cons]
  · rw [userDocPost, List.lookup_append,
      userToDoc_lookup_of_not_mem pU "updatedAt" (by decide)]
    simp [List.lookup_cons]
  · exact postHandler_ok watchValidate watchDocPost ct bW now nid colW pW hct hvW
  · rw [watchDocPost, List.lookup_append,
      watchToDoc_lookup_of_not_mem pW "createdAt" (by decide)]
    simp [List.lookup_cons]
  · rw [watchDocPost, List.lookup_append,
      watchToDoc_lookup_of_not_mem pW "updatedAt" (by decide)]
    simp [List.lookup_cons]
  · exact postHandler_ok (mangaValidate cy) mangaDocPost ct bM now nid colM pM hct hvM
  · exact mangaToDoc_lookup_of_not_mem pM "createdAt" (by decide)
  · exact mangaToDoc_lookup_of_not_mem pM "updatedAt" (by decide)
  · have hA := putHandler_ok "Invalid id" (animeValidate cy) animeDocPut ct idA bA now colA
      iA pA hct hidA hvA hmA
    simp only [animePut, hA]
    exact lookup_replace colA iA _ hmA
  · rw [animeDocPut, List.lookup_append,
      animeToDoc_lookup_of_not_mem pA "updatedAt" (by decide)]
    simp [List.lookup_cons]
  · rw [animeDocPut, List.lookup_append,
      animeToDoc_lookup_of_not_mem pA "createdAt" (by decide)]
    simp [List.lookup_cons]
  · have hU := putHandler_ok "Invalid id format" userValidate userDocPut ct idU bU now colU
      iU pU hct hidU hvU hmU
    simp only [userPut, hU]
    exact lookup_replace colU iU _ hmU
  · rw [userDocPut, List.lookup_append,
      userToDoc_lookup_of_not_mem pU "updatedAt" (by decide)]
    simp [List.lookup_cons]
  · rw [userDocPut, List.lookup_append,
      userToDoc_lookup_of_not_mem pU "createdAt" (by decide)]
    simp [List.lookup_cons]
  · have hW := putHandler_ok "Invalid id format" watchValidate watchDocPut ct idW bW now colW
      iW pW hct hidW hvW hmW
    simp only [watchPut, hW]
    exact lookup_replace colW iW _ hmW
  · rw [watchDocPut, List.lookup_append,
      watchToDoc_lookup_of_not_mem pW "updatedAt" (by decide)]
    simp [List.lookup_cons]
  · rw [watchDocPut, List.lookup_append,
      watchToDoc_lookup_of_not_mem pW "createdAt" (by decide)]
    simp [List.lookup_cons]
  · have hM := putHandler_ok "Invalid id" (mangaValidate cy) mangaDocPut ct idM bM now colM
      iM pM hct hidM hvM hmM
    simp only [mangaPut, hM]
    exact lookup_replace colM iM _ hmM
  · exact mangaToDoc_lookup_of_not_mem pM "updatedAt" (by decide)
  · exact mangaToDoc_lookup_of_not_mem pM "createdAt" (by decide)

/-- Witness for C3's amended theorem at concrete creates and replaces. -/
theorem c3_timestamps_by_resource_witness :
    mangaValidate 2026 sampleMangaBody = .ok sampleParsedManga ∧
    watchValidate sampleWatchBody = .ok sampleParsedWatch ∧
    (mangaDocPost sampleParsedManga 100).lookup "createdAt" = none :=
  ⟨by decide, by decide,
   (c3_timestamps_by_resource 2026 100 "application/json" "0123456789abcdef01234567"
      sampleAnimeBody sampleMangaBody sampleUserBody sampleWatchBody
      [("665f6a0f2c3d4b1a9f0a1234", sampleStoredAnime)]
      [("665f6a0f2c3d4b1a9f0a5678", [])]
      [("6640a2f2d7b3c1a9f0a11223", [])]
      [("665f6a0f2c3d4b1a9f0a9abc", [])]
      sampleParsedAnime sampleParsedManga sampleParsedUser sampleParsedWatch
      "665f6a0f2c3d4b1a9f0a1234" "665f6a0f2c3d4b1a9f0a5678"
      "6640a2f2d7b3c1a9f0a11223" "665f6a0f2c3d4b1a9f0a9abc"
      "665f6a0f2c3d4b1a9f0a1234" "665f6a0f2c3d4b1a9f0a5678"
      "6640a2f2d7b3c1a9f0a11223" "665f6a0f2c3d4b1a9f0a9abc"
      rfl (by decide) (by decide) (by decide) (by decide)
      (by decide) (by decide) (by decide) (by decide)
      (by decide) (by decide) (by decide) (by decide)).2.2.2.1.2.1⟩


/-- Claim C4: the Anime validator coerces numeric-looking strings — a string
whose JavaScript `Number` value satisfies the field's constraints is accepted
for `releaseYear`, `rating`, or `episodes` and converted to that number (and
whenever the whole validator accepts a body whose `releaseYear` is a string,
the parsed record holds its numeric value) — while the Manga validator rejects
any string (numeric-looking or not) in `chapters`, `releaseYear`, or `rating`
with a validation failure naming the field, and the User validator rejects a
non-string `displayName` likewise: no coercion for Manga or User. -/
theorem c4_coercion_asymmetry (cy : Nat) (s : String) (q : ℚ) (b bm bu : Doc) (v : JValue)
    (p : ParsedAnime) (hn : jsNumberOfString s = some q) :
    (b.lookup "releaseYear" = some (.jstr s) → isIntQ q = true → (1960 : ℚ) ≤ q →
      q ≤ ((cy + 1 : ℕ) : ℚ) → aReleaseYear cy b = some q) ∧
    (b.lookup "rating" = some (.jstr s) → (0 : ℚ) ≤ q → q ≤ (10 : ℚ) →
      aRating b = some (some q)) ∧
    (b.lookup "episodes" = some (.jstr s) → isIntQ q = true → (0 : ℚ) ≤ q →
      aEpisodes b = some (some q)) ∧
    (animeValidate cy b = .ok p → b.lookup "releaseYear" = some (.jstr s) →
      p.releaseYear = q) ∧
    (bm.lookup "chapters" = some (.jstr s) →
      ∃ es, mangaValidate cy bm = .error es ∧ "chapters" ∈ es) ∧
    (bm.lookup "releaseYear" = some (.jstr s) →
      ∃ es, mangaValidate cy bm = .error es ∧ "releaseYear" ∈ es) ∧
    (bm.lookup "rating" = some (.jstr s) →
      ∃ es, mangaValidate cy bm = .error es ∧ "rating" ∈ es) ∧
    ((∀ t : String, v ≠ .jstr t) → bu.lookup "displayName" = some v →
      ∃ es, userValidate bu = .error es ∧ "displayName" ∈ es) := by
  refine ⟨?_, ?_, ?_, ?_, ?_, ?_, ?_, ?_⟩
  · intro hlook hint hge hle
    unfold aReleaseYear coerceNum
    rw [hlook]
    simp only [jsToNumber, hn]
    rw [if_pos (by rw [hint, decide_eq_true hge, decide_eq_true hle]; rfl)]
  · intro hlook hge hle
    unfold aRating coerceNumOpt
    rw [hlook]
    simp only [jsToNumber, hn]
    rw [if_pos (by rw [decide_eq_true hge, decide_eq_true hle]; rfl)]
  · intro hlook hint hge
    unfold aEpisodes coerceNumOpt
    rw [hlook]
    simp only [jsToNumber, hn]
    rw [if_pos (by rw [hint, decide_eq_true hge]; rfl)]
  · intro hv hlook
    have hsome : (aReleaseYear cy b).isSome = true := by
      unfold animeValidate at hv
      by_cases h : animeErrors cy b = []
      · by_contra hns
        have hnone : aReleaseYear cy b = none := by
          simpa [Option.isNone_iff_eq_none] using hns
        have hmem : "releaseYear" ∈ animeErrors cy b := by
          simp [animeErrors, List.mem_append, mem_errChunk_iff, hnone]
        simp [h] at hmem
      · rw [if_neg h] at hv; exact absurd hv (by simp)
    have hval : aReleaseYear cy b = some q := by
      unfold aReleaseYear coerceNum at hsome ⊢
      rw [hlook] at hsome ⊢
      simp only [jsToNumber, hn] at hsome ⊢
      split at hsome
      · next hcond => rw [if_pos hcond]
      · next hcond => simp at hsome
    have hpv : p.releaseYear = (aReleaseYear cy b).getD 0 := by
      unfold animeValidate at hv
      by_cases h : animeErrors cy b = []
      · rw [if_pos h] at hv
        obtain rfl : _ = p := by simpa using hv
        rfl
      · rw [if_neg h] at hv; exact absurd hv (by simp)
    rw [hpv, hval]; rfl
  · intro hlook
    have hch : mChapters bm = none := by
      simp [mChapters, strictNumOpt, hlook]
    have hmem : "chapters" ∈ mangaErrors cy bm := by
      simp [mangaErrors, List.mem_append, mem_errChunk_iff, hch]
    refine ⟨mangaErrors cy bm, ?_, hmem⟩
    unfold mangaValidate
    rw [if_neg (List.ne_nil_of_mem hmem)]
  · intro hlook
    have hch : mReleaseYear cy bm = none := by
      simp [mReleaseYear, strictNumOpt, hlook]
    have hmem : "releaseYear" ∈ mangaErrors cy bm := by
      simp [mangaErrors, List.mem_append, mem_errChunk_iff, hch]
    refine ⟨mangaErrors cy bm, ?_, hmem⟩
    unfold mangaValidate
    rw [if_neg (List.ne_nil_of_mem hmem)]
  · intro hlook
    have hch : mRating bm = none := by
      simp [mRating, strictNumOpt, hlook]
    have hmem : "rating" ∈ mangaErrors cy bm := by
      simp [mangaErrors, List.mem_append, mem_errChunk_iff, hch]
    refine ⟨mangaErrors cy bm, ?_, hmem⟩
    unfold mangaValidate
    rw [if_neg (List.ne_nil_of_mem hmem)]
  · intro hnot hlook
    have hdn : uDisplayName bu = none := by
      unfold uDisplayName reqNonempty
      rw [hlook]
      cases v with
      | jstr t => exact absurd rfl (hnot t)
      | jnull => rfl
      | jbool b => rfl
      | jnum qq => rfl
      | jarr xs => rfl
      | jdate t => rfl
    have hmem : "displayName" ∈ userErrors bu := by
      simp [userErrors, List.mem_append, mem_errChunk_iff, hdn]
    refine ⟨userErrors bu, ?_, hmem⟩
    unfold userValidate
    rw [if_neg (List.ne_nil_of_mem hmem)]

/-- Witness for C4 at the string "1998" (anime accepts and converts), a string
manga `chapters`, and a numeric user `displayName`. -/
theorem c4_coercion_asymmetry_witness :
    jsNumberOfString "1998" = some 1998 ∧
    aReleaseYear 2026 [("releaseYear", .jstr "1998")] = some 1998 ∧
    (∃ es, mangaValidate 2026 [("chapters", .jstr "1998")] = .error es ∧ "chapters" ∈ es) ∧
    (∃ es, userValidate [("displayName", .jnum 5)] = .error es ∧ "displayName" ∈ es) := by
  have h := c4_coercion_asymmetry 2026 "1998" 1998 [("releaseYear", .jstr "1998")]
    [("chapters", .jstr "1998")] [("displayName", .jnum 5)] (.jnum 5)
    sampleParsedAnime (by decide)
  exact ⟨by decide, h.1 rfl (by decide) (by decide) (by decide),
    h.2.2.2.2.1 rfl, h.2.2.2.2.2.2.2 (fun t he => JValue.noConfusion he) rfl⟩

/-- Claim C5: when validation of an anime create fails, the 400 response
carries the aggregated report, and a field name appears in that report exactly
when that field's validator fails — every invalid field is named, not only the
first one encountered. -/
theorem c5_error_aggregation (cy now : Nat) (ct newId : String) (body : Doc)
    (col : Collection) (es : List String) (hct : ctIsJson ct = true)
    (hv : animeValidate cy body = .error es) :
    animePost cy ct body now newId col = ⟨⟨400, .errors "Validation error" es⟩, col⟩ ∧
    (∀ f : String, f ∈ es ↔
      ((f = "title" ∧ aTitle body = none) ∨
       (f = "genres" ∧ aGenres body = none) ∨
       (f = "releaseYear" ∧ aReleaseYear cy body = none) ∨
       (f = "rating" ∧ aRating body = none) ∨
       (f = "episodes" ∧ aEpisodes body = none) ∨
       (f = "studio" ∧ aStudio body = none) ∨
       (f = "status" ∧ aStatus body = none) ∨
       (f = "description" ∧ aDescription body = none) ∨
       (f = "coverImage" ∧ aCover body = none))) := by
  have hes : es = animeErrors cy body := by
    unfold animeValidate at hv
    by_cases h : animeErrors cy body = []
    · rw [if_pos h] at hv; exact absurd hv (by simp)
    · rw [if_neg h] at hv
      simpa using hv.symm
  constructor
  · simp [animePost, postHandler, hct, hv]
  · intro f
    rw [hes]
    simp only [animeErrors, List.mem_append, mem_errChunk_iff, or_assoc]

/-- Witness for C5 at an empty body: all four required anime fields are
reported together. -/
theorem c5_error_aggregation_witness :
    animeValidate 2026 [] = .error ["title", "genres", "releaseYear", "status"] ∧
    animePost 2026 "application/json" [] 0 "665f6a0f2c3d4b1a9f0a1234" [] =
      ⟨⟨400, .errors "Validation error" ["title", "genres", "releaseYear", "status"]⟩, []⟩ :=
  ⟨by decide,
   (c5_error_aggregation 2026 0 "application/json" "665f6a0f2c3d4b1a9f0a1234" [] []
      ["title", "genres", "releaseYear", "status"] rfl (by decide)).1⟩

/-- Claim C6: a POST or PUT whose content type is not `application/json` is
answered 415 on every one of the four resources, for every body and path id,
and the collection is left unchanged — the check runs before identifier
parsing and body validation, so no validation error and no write can occur. -/
theorem c6_content_type_gate (cy now : Nat) (ct idStr newId : String) (body : Doc)
    (colA colM colU colW : Collection) (h : ctIsJson ct = false) :
    animePost cy ct body now newId colA
      = ⟨⟨415, .msg "Content-Type must be application/json"⟩, colA⟩ ∧
    mangaPost cy ct body now newId colM
      = ⟨⟨415, .msg "Content-Type must be application/json"⟩, colM⟩ ∧
    userPost ct body now newId colU
      = ⟨⟨415, .msg "Content-Type must be application/json"⟩, colU⟩ ∧
    watchPost ct body now newId colW
      = ⟨⟨415, .msg "Content-Type must be application/json"⟩, colW⟩ ∧
    animePut cy ct idStr body now colA
      = ⟨⟨415, .msg "Content-Type must be application/json"⟩, colA⟩ ∧
    mangaPut cy ct idStr body now colM
      = ⟨⟨415, .msg "Content-Type must be application/json"⟩, colM⟩ ∧
    userPut ct idStr body now colU
      = ⟨⟨415, .msg "Content-Type must be application/json"⟩, colU⟩ ∧
    watchPut ct idStr body now colW
      = ⟨⟨415, .msg "Content-Type must be application/json"⟩, colW⟩ := by
  refine ⟨?_, ?_, ?_, ?_, ?_, ?_, ?_, ?_⟩ <;>
    simp [animePost, mangaPost, userPost, watchPost, postHandler,
      animePut, mangaPut, userPut, watchPut, putHandler, h]

/-- Witness for C6 at a `text/plain` POST with an invalid body and id. -/
theorem c6_content_type_gate_witness :
    ctIsJson "text/plain" = false ∧
    animePost 2026 "text/plain" [] 0 "665f6a0f2c3d4b1a9f0a1234" [] =
      ⟨⟨415, .msg "Content-Type must be application/json"⟩, []⟩ :=
  ⟨by decide,
   (c6_content_type_gate 2026 0 "text/plain" "not-an-id" "665f6a0f2c3d4b1a9f0a1234"
      [] [] [] [] [] (by decide)).1⟩

/-- Claim C7: the Authorization Gate is fully determined by startup
configuration — with no configured issuer-plus-audience, or with the disable
flag set, `jwtCheck` and `needWrite` are both the no-op middleware and pass
every request through; only when the audience and an issuer or domain are all
configured and the flag is unset do they become the real JWT verifier and the
`write:library` scope guard. -/
theorem c7_auth_gate_config (e1 e2 : AuthEnv)
    (h1 : hasAuthConfig e1 = false ∨ authDisabled e1 = true)
    (h2 : hasAuthConfig e2 = true) (h3 : authDisabled e2 = false) :
    jwtCheck e1 = .noop ∧ needWrite e1 = .noop ∧
    (∀ tok : Option Token,
      mwAllows (jwtCheck e1) tok = true ∧ mwAllows (needWrite e1) tok = true) ∧
    jwtCheck e2 = .verifyJwt (e2.AUTH0_AUDIENCE.getD "") ((issuerBaseURL e2).getD "") ∧
    needWrite e2 = .needScope "write:library" := by
  have g1 : (hasAuthConfig e1 && !authDisabled e1) = false := by
    rcases h1 with h | h <;> simp [h]
  have g2 : (hasAuthConfig e2 && !authDisabled e2) = true := by simp [h2, h3]
  refine ⟨?_, ?_, ?_, ?_, ?_⟩
  · simp [jwtCheck, g1]
  · simp [needWrite, reqScopes, g1]
  · intro tok
    constructor <;> simp [jwtCheck, needWrite, reqScopes, g1, mwAllows]
  · simp [jwtCheck, g2]
  · simp [needWrite, reqScopes, g2]

/-- Witness for C7: an unconfigured environment passes through, a fully
configured one enforces. -/
theorem c7_auth_gate_config_witness :
    hasAuthConfig ⟨none, none, none, none⟩ = false ∧
    hasAuthConfig ⟨none, some "https://api.example.com", some "https://tenant.auth0.com", none⟩
      = true ∧
    jwtCheck ⟨none, none, none, none⟩ = .noop ∧
    jwtCheck ⟨none, some "https://api.example.com", some "https://tenant.auth0.com", none⟩
      = .verifyJwt "https://api.example.com" "https://tenant.auth0.com" := by
  have h := c7_auth_gate_config ⟨none, none, none, none⟩
    ⟨none, some "https://api.example.com", some "https://tenant.auth0.com", none⟩
    (Or.inl (by decide)) (by decide) (by decide)
  exact ⟨by decide, by decide, h.1, h.2.2.2.1⟩

/-- Claim C8: a watchlist-item create payload without a `status` key validates
with `status = "planned"` and that default is in the stored document, and a
user create payload without a `role` key validates with `role = "user"` in the
stored document. -/
theorem c8_defaults (bW bU : Doc) (ct : String) (now : Nat) (nid : String)
    (colW colU : Collection) (hct : ctIsJson ct = true)
    (hWs : bW.lookup "status" = none)
    (hW1 : (wUserId bW).isSome = true) (hW2 : (wKind bW).isSome = true)
    (hW3 : (wRefId bW).isSome = true) (hW4 : (wNotes bW).isSome = true)
    (hUr : bU.lookup "role" = none)
    (hU1 : (uEmail bU).isSome = true) (hU2 : (uDisplayName bU).isSome = true) :
    (∃ p : ParsedWatchItem, watchValidate bW = .ok p ∧ p.status = "planned" ∧
      watchPost ct bW now nid colW
        = ⟨⟨201, .createdId nid⟩, colW ++ [(nid, watchDocPost p now)]⟩ ∧
      (watchDocPost p now).lookup "status" = some (.jstr "planned")) ∧
    (∃ p : ParsedUser, userValidate bU = .ok p ∧ p.role = "user" ∧
      userPost ct bU now nid colU
        = ⟨⟨201, .createdId nid⟩, colU ++ [(nid, userDocPost p now)]⟩ ∧
      (userDocPost p now).lookup "role" = some (.jstr "user")) := by
  have hst : wStatus bW = some "planned" := by
    simp [wStatus, strEnumDefault, hWs]
  have herrW : watchErrors bW = [] := by
    simp [watchErrors, hW1, hW2, hW3, hW4, hst]
  have hvW : watchValidate bW = .ok
      { userId := (wUserId bW).getD "", kind := (wKind bW).getD "",
        refId := (wRefId bW).getD "", status := (wStatus bW).getD "",
        notes := (wNotes bW).getD none } := by
    unfold watchValidate
    rw [if_pos herrW]
  have hrl : uRole bU = some "user" := by
    simp [uRole, strEnumDefault, hUr]
  have herrU : userErrors bU = [] := by
    simp [userErrors, hU1, hU2, hrl]
  have hvU : userValidate bU = .ok
      { email := (uEmail bU).getD "", displayName := (uDisplayName bU).getD "",
        role := (uRole bU).getD "" } := by
    unfold userValidate
    rw [if_pos herrU]
  constructor
  · refine ⟨_, hvW, ?_, ?_, ?_⟩
    · simp [hst]
    · exact postHandler_ok watchValidate watchDocPost ct bW now nid colW _ hct hvW
    · simp [watchDocPost, watchToDoc, List.lookup_append, List.lookup_cons, hst]
  · refine ⟨_, hvU, ?_, ?_, ?_⟩
    · simp [hrl]
    · exact postHandler_ok userValidate userDocPost ct bU now nid colU _ hct hvU
    · simp [userDocPost, userToDoc, List.lookup_append, List.lookup_cons, hrl]

/-- Witness for C8 at concrete status-less and role-less create payloads. -/
theorem c8_defaults_witness :
    sampleWatchBody.lookup "status" = none ∧
    sampleUserBody.lookup "role" = none ∧
    (∃ p : ParsedWatchItem, watchValidate sampleWatchBody = .ok p ∧ p.status = "planned" ∧
      watchPost "application/json" sampleWatchBody 100 "665f6a0f2c3d4b1a9f0a9abc" []
        = ⟨⟨201, .createdId "665f6a0f2c3d4b1a9f0a9abc"⟩,
           [] ++ [("665f6a0f2c3d4b1a9f0a9abc", watchDocPost p 100)]⟩ ∧
      (watchDocPost p 100).lookup "status" = some (.jstr "planned")) :=
  ⟨rfl, rfl,
   (c8_defaults sampleWatchBody sampleUserBody "application/json" 100
      "665f6a0f2c3d4b1a9f0a9abc" [] [] rfl rfl (by decide) (by decide) (by decide)
      (by decide) rfl (by decide) (by decide)).1⟩

/-- Claim C9: `connectToDb` is idempotent — after any successful connect,
every later call with provided (truthy) arguments returns the already-open
handle and leaves the state unchanged (no reconnection, whatever the network
would do) — and `getDb` returns the handle exactly when a connect has
succeeded, failing with the not-initialized error on the pristine state and on
every state with no handle. -/
theorem c9_connect_idempotent (netOk netOk2 : Bool) (u n u2 n2 : String)
    (s s1 : DbState) (d : String)
    (h : connectToDb netOk u n s = .ok (d, s1))
    (hu : u2.data.isEmpty = false) (hn : n2.data.isEmpty = false) :
    connectToDb netOk2 u2 n2 s1 = .ok (d, s1) ∧
    getDb s1 = .ok d ∧
    getDb startDbState = .error "DB not initialized. Call connectToDb first." ∧
    (∀ t : DbState, t.db = none ↔
      getDb t = .error "DB not initialized. Call connectToDb first.") := by
  have hdb : s1.db = some d := by
    unfold connectToDb at h
    by_cases hue : u.data.isEmpty
    · rw [if_pos hue] at h; exact absurd h (by simp)
    · rw [if_neg hue] at h
      by_cases hne : n.data.isEmpty
      · rw [if_pos hne] at h; exact absurd h (by simp)
      · rw [if_neg hne] at h
        cases hs : s.db with
        | some d0 =>
            rw [hs] at h
            obtain ⟨h1, h2⟩ : d0 = d ∧ s = s1 := by simpa using h
            rw [← h2, hs, h1]
        | none =>
            rw [hs] at h
            cases netOk with
            | false => exact absurd h (by simp)
            | true =>
                obtain ⟨h1, h2⟩ : n = d ∧ (⟨some n, s.connects + 1⟩ : DbState) = s1 := by
                  simpa using h
                rw [← h2]; simp [h1]
  refine ⟨?_, ?_, ?_, ?_⟩
  · unfold connectToDb
    rw [if_neg (by simp [hu]), if_neg (by simp [hn]), hdb]
  · simp [getDb, hdb]
  · rfl
  · intro t
    unfold getDb
    cases ht : t.db <;> simp

/-- Witness for C9: a first connect from the pristine state, then a repeat
call with different arguments and a dead network still returns the same
handle without reconnecting. -/
theorem c9_connect_idempotent_witness :
    connectToDb true "mongodb+srv://cluster/test" "animeDb" startDbState
      = .ok ("animeDb", ⟨some "animeDb", 1⟩) ∧
    connectToDb false "mongodb://other" "otherDb" ⟨some "animeDb", 1⟩
      = .ok ("animeDb", ⟨some "animeDb", 1⟩) :=
  ⟨by decide,
   (c9_connect_idempotent true false "mongodb+srv://cluster/test" "animeDb"
      "mongodb://other" "otherDb" startDbState ⟨some "animeDb", 1⟩ "animeDb"
      (by decide) (by decide) (by decide)).1⟩

/-- Claim C10: keys of the raw body that are not declared in `AnimeSchema` are
silently stripped — validation of a body extended with any undeclared field is
identical to validation of the body alone (so the payload is not rejected for
the unknown field), the validated document only ever contains declared keys,
and the whole create handler's response and stored state are unchanged by the
extra field. -/
theorem c10_unknown_fields_stripped (cy : Nat) (ct : String) (body : Doc) (k : String)
    (v : JValue) (now : Nat) (nid : String) (col : Collection)
    (hk : k ∉ animeFieldNames) :
    animeValidate cy (body ++ [(k, v)]) = animeValidate cy body ∧
    (∀ (p : ParsedAnime) (f : String), f ∉ animeFieldNames →
      (animeToDoc p).lookup f = none) ∧
    animePost cy ct (body ++ [(k, v)]) now nid col = animePost cy ct body now nid col := by
  simp only [animeFieldNames, List.mem_cons, List.not_mem_nil, or_false, not_or] at hk
  obtain ⟨k1, k2, k3, k4, k5, k6, k7, k8, k9⟩ := hk
  have e1 := lookup_append_single body k "title" v (fun h => k1 h.symm)
  have e2 := lookup_append_single body k "genres" v (fun h => k2 h.symm)
  have e3 := lookup_append_single body k "releaseYear" v (fun h => k3 h.symm)
  have e4 := lookup_append_single body k "rating" v (fun h => k4 h.symm)
  have e5 := lookup_append_single body k "episodes" v (fun h => k5 h.symm)
  have e6 := lookup_append_single body k "studio" v (fun h => k6 h.symm)
  have e7 := lookup_append_single body k "status" v (fun h => k7 h.symm)
  have e8 := lookup_append_single body k "description" v (fun h => k8 h.symm)
  have e9 := lookup_append_single body k "coverImage" v (fun h => k9 h.symm)
  have hval : animeValidate cy (body ++ [(k, v)]) = animeValidate cy body := by
    simp only [animeValidate, animeErrors, aTitle, aGenres, aReleaseYear, aRating,
      aEpisodes, aStudio, aStatus, aDescription, aCover, e1, e2, e3, e4, e5, e6, e7, e8, e9]
  refine ⟨hval, fun p f hf => animeToDoc_lookup_of_not_mem p f hf, ?_⟩
  simp only [animePost, postHandler, hval]

/-- Witness for C10 at a concrete undeclared field. -/
theorem c10_unknown_fields_stripped_witness :
    ("secretPower" : String) ∉ animeFieldNames ∧
    animeValidate 2026 (sampleAnimeBody ++ [("secretPower", .jstr "yes")])
      = animeValidate 2026 sampleAnimeBody :=
  ⟨by decide,
   (c10_unknown_fields_stripped 2026 "application/json" sampleAnimeBody "secretPower"
      (.jstr "yes") 0 "665f6a0f2c3d4b1a9f0a1234" [] (by decide)).1⟩

end AnimeApi
